import Mathlib

/-
Verification of the stream-resynchronization engine of `src/tstools/tsresync.cpp`
(TSDuck, 2005-2017 version).  The engine reads a byte stream that is expected to
contain fixed-size transport packets, searches for the packet framing
(packet size, header size, start offset), re-emits the packets, and monitors
every subsequent packet boundary for the 0x47 marker byte.

The embedding models bytes as `Nat`, buffers as `List Nat`, the input stream as
a list of still-unread bytes plus a flag saying whether exhausting it is a clean
end-of-stream or a hard read error (`std::cin.read` reports both identically,
which the code observes through the stream's boolean conversion only), and the
output stream as the list of bytes written plus a good/bad flag (`std::cout`).
-/

set_option maxRecDepth 40000

namespace TsResync

/-- Standard transport packet size in bytes (`PKT_SIZE` from the toolkit
headers; the tool's help text:  188-byte standard packets). -/
def PKT_SIZE : Nat := 188

/-- Packet size with trailing 16-byte Reed-Solomon outer FEC (`PKT_RS_SIZE`;
help text: 204-byte packets). -/
def PKT_RS_SIZE : Nat := 204

/-- M2TS packet size: 188-byte packet with a leading 4-byte timestamp
(`PKT_M2TS_SIZE`; help text: 192-byte packets). -/
def PKT_M2TS_SIZE : Nat := 192

/-- Size of the leading timestamp header of M2TS packets (`M2TS_HEADER_SIZE`). -/
def M2TS_HEADER_SIZE : Nat := 4

/-- The marker byte expected at the start of every transport packet
(`SYNC_BYTE` = 0x47; help text:  stop after first packet not starting
with 0x47). -/
def SYNC_BYTE : Nat := 71

/-- Processing status, `enum Status {RS_OK, RS_SYNC_LOST, RS_EOF, RS_ERROR}`
(tsresync.cpp line 164). -/
inductive Status where
  | RS_OK
  | RS_SYNC_LOST
  | RS_EOF
  | RS_ERROR
deriving DecidableEq

/-- The private state of class `Resynchronizer` (tsresync.cpp lines 215-223). -/
structure RState where
  status : Status
  keep_packet_size : Bool
  out_size : Nat
  in_pkt_size : Nat
  in_header_size : Nat
  out_pkt_size : Nat
  out_header_size : Nat
deriving DecidableEq

/-- The `Resynchronizer` constructor (lines 204-213): everything zero,
status `RS_OK`, `keep_packet_size` as given. -/
def initResync (keep : Bool) : RState :=
  { status := Status.RS_OK
    keep_packet_size := keep
    out_size := 0
    in_pkt_size := 0
    in_header_size := 0
    out_pkt_size := 0
    out_header_size := 0 }

/-- `Resynchronizer::reset` (lines 171-176): status back to `RS_OK`, input
packet and header sizes cleared.  The output sizes and the byte counter
`_out_size` are not touched. -/
def reset (r : RState) : RState :=
  { r with status := Status.RS_OK, in_pkt_size := 0, in_header_size := 0 }

/-- `Resynchronizer::outputFileBytes` (line 190). -/
def outputFileBytes (r : RState) : Nat := r.out_size

/-- `Resynchronizer::outputFilePackets` (line 191):
`_out_pkt_size == 0 ? 0 : _out_size / _out_pkt_size`. -/
def outputFilePackets (r : RState) : Nat :=
  if r.out_pkt_size = 0 then 0 else r.out_size / r.out_pkt_size

/-- The input port.  `data` is the sequence of bytes `std::cin` will still
deliver; `hardError` records whether the event that ends the stream is a hard
read error rather than a clean end-of-file.  `std::cin.read` reports both
through the same failed stream state, and `Resynchronizer::readData` inspects
nothing but that state, so `hardError` is (faithfully) never consulted. -/
structure InStream where
  data : List Nat
  hardError : Bool
deriving DecidableEq

/-- The output port: bytes written so far plus the stream's good/bad state
(`std::cout`). -/
structure OutStream where
  written : List Nat
  good : Bool
deriving DecidableEq

/-- `Resynchronizer::readData` (lines 230-248).  The loop calls
`std::cin.read(buf + got, remain)`, which either delivers all `remain`
requested bytes (so the loop exits with `got == size` after one successful
call) or fails -- at end-of-file or on a hard error alike -- leaving `got == 0`,
in which case `_status = RS_EOF` is set and 0 is returned.  Bytes extracted by
the failing `read` call are stored in the caller's buffer but are not counted
in `got`, and no caller ever looks past the returned count, so the model
returns only the counted bytes (`got` is the length of the returned list). -/
def readData (r : RState) (ins : InStream) (size : Nat) :
    RState × InStream × List Nat :=
  if size ≤ ins.data.length then
    (r, { ins with data := ins.data.drop size }, ins.data.take size)
  else
    ({ r with status := Status.RS_EOF }, { ins with data := [] }, [])

/-- `Resynchronizer::writePacket` (lines 255-267).  Writes `_out_pkt_size`
bytes starting at `input_packet + _in_header_size - _out_header_size`; on
success adds `_out_pkt_size` to `_out_size`, on failure sets `RS_ERROR`.
`pkt` is the byte sequence starting at the C pointer `input_packet`. -/
def writePacket (r : RState) (os : OutStream) (pkt : List Nat) :
    Bool × RState × OutStream :=
  let out_pkt := (pkt.drop (r.in_header_size - r.out_header_size)).take r.out_pkt_size
  if os.good then
    (true, { r with out_size := r.out_size + r.out_pkt_size },
     { os with written := os.written ++ out_pkt })
  else
    (false, { r with status := Status.RS_ERROR }, os)

/-- The scan loop of `Resynchronizer::checkSync` (lines 277-285): starting at
offset `p`, step by `pkt_size` while the pointer is below
`buf + buf_size - pkt_size + 1`, i.e. while `p + pkt_size ≤ buf_size`; at each
step test the byte at `p + header_size` against `SYNC_BYTE` and return false
on the first mismatch.  The entry assertion
`assert(pkt_size >= header_size + PKT_SIZE)` (line 276) is folded into the
loop guard: it does not mention `p`, so for every call that passes the
assertion the guard is equivalent to the C loop condition, and it makes the
recursion terminate (`pkt_size ≥ 188 > 0`). -/
def checkSyncLoop (buf : List Nat) (buf_size pkt_size header_size p : Nat) : Bool :=
  if h : p + pkt_size ≤ buf_size ∧ header_size + PKT_SIZE ≤ pkt_size then
    if buf.getD (p + header_size) 0 ≠ SYNC_BYTE then false
    else checkSyncLoop buf buf_size pkt_size header_size (p + pkt_size)
  else true
termination_by buf_size - p
decreasing_by
  rcases h with ⟨h1, h2⟩
  unfold PKT_SIZE at h2
  omega

/-- `Resynchronizer::checkSync` (lines 274-293).  If the scan loop accepts the
whole region, record the input framing and derive the output framing from
`_keep_packet_size`, returning true; otherwise return false leaving the state
untouched. -/
def checkSync (r : RState) (buf : List Nat) (buf_size pkt_size header_size : Nat) :
    Bool × RState :=
  if checkSyncLoop buf buf_size pkt_size header_size 0 then
    (true,
     { r with
        in_pkt_size := pkt_size
        in_header_size := header_size
        out_pkt_size := if r.keep_packet_size then pkt_size else PKT_SIZE
        out_header_size := if r.keep_packet_size then header_size else 0 })
  else (false, r)

/-- Command-line configuration consumed by the engine (struct `Options`,
lines 58-71): search-window byte budget (`--sync-size`), verification-window
byte budget (`--min-contiguous`), optional pinned packet and header sizes
(`--packet-size`, `--header-size`, zero packet size means try the standard
sizes), continuous-recovery flag (`--continue`) and preserve-framing flag
(`--keep`). -/
structure Opts where
  sync_size : Nat
  contig_size : Nat
  packet_size : Nat
  header_size : Nat
  cont_sync : Bool
  keep : Bool
deriving DecidableEq

/-- One iteration body of the candidate search (lines 337-357): at the current
start offset (the view `view` of the buffer), if an explicit packet size is
pinned try only that (packet size, header size) pair, otherwise try the three
standard formats in order -- bare 188, 204 with trailing FEC, 192 with a
4-byte leading timestamp header -- stopping at the first success. -/
def tryOffset (r : RState) (view : List Nat) (search_size ps hs : Nat) :
    Bool × RState :=
  if 0 < ps then
    checkSync r view search_size ps hs
  else
    let t1 := checkSync r view search_size PKT_SIZE 0
    if t1.1 then t1
    else
      let t2 := checkSync t1.2 view search_size PKT_RS_SIZE 0
      if t2.1 then t2
      else checkSync t2.2 view search_size PKT_M2TS_SIZE M2TS_HEADER_SIZE

/-- The candidate search loop (lines 336-358): slide the start offset from
`off` upward while `start < end_search`, i.e. while
`off + search_size ≤ buf.length` (with `end_search = sync_end - search_size + 1`);
the first offset at which `tryOffset` confirms a framing wins.  Returns the
winning offset, or `none` when the searchable range is exhausted (in the C
code that case is detected right after the loop by `inputPacketSize() == 0`,
which is equivalent: `reset` zeroed `_in_pkt_size` and only a successful
`checkSync` sets it, always to a positive value). -/
def searchFrom (r : RState) (buf : List Nat) (search_size ps hs off : Nat) :
    RState × Option Nat :=
  if h : off + search_size ≤ buf.length then
    let t := tryOffset r (buf.drop off) search_size ps hs
    if t.1 then (t.2, some off)
    else searchFrom t.2 buf search_size ps hs (off + 1)
  else (r, none)
termination_by buf.length + 1 - off
decreasing_by omega

/-- The initial drain loop (lines 373-379): from the winning offset, while a
full input packet remains (`start <= sync_end - in_pkt_size`, i.e.
`off + in_pkt_size ≤ buf.length`) and the byte at the confirmed header offset
is the marker, write the packet and advance by one input packet; stop without
advancing if the write fails.  Returns the final offset.  The drain runs only
after a successful `checkSync`, which sets `_in_pkt_size ≥ PKT_SIZE > 0`; that
invariant is folded into the guard to make the recursion terminate. -/
def drainLoop (r : RState) (os : OutStream) (buf : List Nat) (off : Nat) :
    RState × OutStream × Nat :=
  if h : off + r.in_pkt_size ≤ buf.length ∧
         buf.getD (off + r.in_header_size) 0 = SYNC_BYTE ∧
         0 < r.in_pkt_size then
    let w := writePacket r os (buf.drop off)
    if w.1 then drainLoop w.2.1 w.2.2 buf (off + r.in_pkt_size)
    else (w.2.1, w.2.2, off)
  else (r, os, off)
termination_by buf.length - off
decreasing_by omega

/-- Buffer compaction after the drain (lines 384-396): the leftover bytes
`[start, sync_end)` are moved (`memmove`, overlap-safe) to the buffer start
and become the pre-loaded bytes of the next read; when `start ≥ sync_end`
nothing is kept (`List.drop` at or past the length is `[]`, covering both C
branches).  If at least one full input packet is left over, synchronization
is already known lost and the status becomes `RS_SYNC_LOST`. -/
def compactAndClassify (r : RState) (buf : List Nat) (endOff : Nat) :
    RState × List Nat :=
  let pre := buf.drop endOff
  if r.in_pkt_size ≤ pre.length then
    ({ r with status := Status.RS_SYNC_LOST }, pre)
  else (r, pre)

/-- The steady-state per-packet loop (lines 399-419): while the status is
`RS_OK` -- with the loop-head assertion `sync_pre_size < in_pkt_size` (line
400) folded into the guard -- read the remainder of one packet; if the read is
short set `RS_EOF`; else if the marker byte at the confirmed header offset is
wrong set `RS_SYNC_LOST` and keep the whole just-read packet as carry-over;
else write the packet and clear the carry-over. -/
def steadyLoop (r : RState) (ins : InStream) (os : OutStream) (pre : List Nat) :
    RState × InStream × OutStream × List Nat :=
  if h : r.status = Status.RS_OK ∧ pre.length < r.in_pkt_size then
    let t := readData r ins (r.in_pkt_size - pre.length)
    if h2 : t.2.2.length ≠ r.in_pkt_size - pre.length then
      ({ t.1 with status := Status.RS_EOF }, t.2.1, os, pre)
    else
      let buf := pre ++ t.2.2
      if buf.getD t.1.in_header_size 0 ≠ SYNC_BYTE then
        ({ t.1 with status := Status.RS_SYNC_LOST }, t.2.1, os, buf)
      else
        let w := writePacket t.1 os buf
        steadyLoop w.2.1 t.2.1 w.2.2 []
  else (r, ins, os, pre)
termination_by ins.data.length
decreasing_by
  rcases h with ⟨hok, hpre⟩
  by_cases hle : r.in_pkt_size - pre.length ≤ ins.data.length
  · have hle2 : r.in_pkt_size - pre.length ≤ ins.data.length := hle
    simp only [readData, if_pos hle]
    simp
    omega
  · exfalso
    apply h2
    show (readData r ins (r.in_pkt_size - pre.length)).2.2.length ≠
      r.in_pkt_size - pre.length
    simp only [readData, if_neg hle]
    simp
    omega

/-- The tail of one pass after a successful drain (lines 384-419): compact the
leftover bytes, classify (steady state vs. sync lost), and run the
steady-state loop (whose guard is false when the status is no longer
`RS_OK`). -/
def afterDrain (r : RState) (buf : List Nat) (endOff : Nat) (ins : InStream)
    (os : OutStream) : RState × InStream × OutStream × List Nat :=
  let c := compactAndClassify r buf endOff
  steadyLoop c.1 ins os c.2

/-- One iteration of the outer do-while loop of `main` (lines 318-419): reset
the analyzer, fill the synchronization buffer after the carried-over bytes
(the buffer capacity is `sync_size + contig_size`, line 308), search for a
confirmed (offset, framing) pair over a `min(contig_size, sync_size)`-byte
verification window, report `RS_ERROR` if none is found, drain all contiguous
valid packets from the winning offset, stop if the status is no longer `RS_OK`
(a failed initial read or a write error), then compact and fall into the
steady-state loop. -/
def onePass (opt : Opts) (r0 : RState) (ins0 : InStream) (os0 : OutStream)
    (pre : List Nat) : RState × InStream × OutStream × List Nat :=
  let t := readData (reset r0) ins0 (opt.sync_size + opt.contig_size - pre.length)
  let buf := pre ++ t.2.2
  let ss := min opt.contig_size buf.length
  let s := searchFrom t.1 buf ss opt.packet_size opt.header_size 0
  match s.2 with
  | none => ({ s.1 with status := Status.RS_ERROR }, t.2.1, os0, pre)
  | some off =>
    let d := drainLoop s.1 os0 buf off
    if d.1.status ≠ Status.RS_OK then (d.1, t.2.1, d.2.1, pre)
    else afterDrain d.1 buf d.2.2 t.2.1 d.2.1

/-- The outer do-while loop of `main` (lines 318-421): run one pass, then run
another while the status is `RS_OK` or (`RS_SYNC_LOST` and `--continue`).
`fuel` bounds the number of additional passes; every theorem below either
holds for all fuel values or evaluates a run whose pass count is below the
supplied fuel (the C loop can genuinely fail to terminate for degenerate
configurations, e.g. a pinned packet size larger than the whole buffer with
`--continue`, so no fuel-free model exists). -/
def runPasses (opt : Opts) (fuel : Nat) (r : RState) (ins : InStream)
    (os : OutStream) (pre : List Nat) :
    RState × InStream × OutStream × List Nat :=
  let p := onePass opt r ins os pre
  match fuel with
  | 0 => p
  | fuel' + 1 =>
    if p.1.status = Status.RS_OK ∨
       (p.1.status = Status.RS_SYNC_LOST ∧ opt.cont_sync = true) then
      runPasses opt fuel' p.1 p.2.1 p.2.2.1 p.2.2.2
    else p

/-- Process exit status (line 428): success exactly when the terminal status
is `RS_EOF`. -/
def exitSuccess (st : Status) : Bool :=
  match st with
  | Status.RS_EOF => true
  | _ => false

/-- The whole program after command-line parsing (`Options::Options` plus
`main`).  The `Options` constructor (lines 152-156) rejects a pinned framing
with `header_size + PKT_SIZE > packet_size` and exits before the input is
opened or read; this is the `Except.error` case, produced without consuming
anything.  Otherwise the engine runs the pass loop on an initially empty
carry-over and reports the terminal status, the bytes written and the final
byte counter. -/
def tsresyncMain (opt : Opts) (ins : InStream) (fuel : Nat) :
    Except Unit (Status × List Nat × Nat) :=
  if 0 < opt.packet_size ∧ opt.packet_size < opt.header_size + PKT_SIZE then
    Except.error ()
  else
    let z := runPasses opt fuel (initResync opt.keep) ins
      { written := [], good := true } []
    Except.ok (z.1.status, z.2.2.1.written, z.1.out_size)

/-! Concrete inputs used by the witnesses and counterexamples below.  The
option values respect the validated command-line minimums
(`MIN_SYNC_SIZE = 1024`, `MIN_CONTIG_SIZE = 2 * PKT_SIZE = 376`). -/

/-- Options with the smallest admissible windows, no pinned framing, no
continuous recovery, normalize output to bare packets. -/
def minOpts : Opts :=
  { sync_size := 1024
    contig_size := 376
    packet_size := 0
    header_size := 0
    cont_sync := false
    keep := false }

/-- An invalid pinned configuration: a 100-byte packet cannot hold the
mandatory 188 bytes after its header (`header_size + PKT_SIZE > packet_size`),
which the `Options` constructor rejects. -/
def badOpts : Opts :=
  { sync_size := 1024
    contig_size := 376
    packet_size := 100
    header_size := 0
    cont_sync := false
    keep := false }

/-- A valid pinned configuration: 400-byte packets with a 10-byte header. -/
def pinOpts : Opts :=
  { sync_size := 1024
    contig_size := 376
    packet_size := 400
    header_size := 10
    cont_sync := false
    keep := false }

/-- One valid bare 188-byte transport packet. -/
def onePacket : List Nat := SYNC_BYTE :: List.replicate 187 0

/-- Two valid bare 188-byte transport packets (marker bytes at offsets 0
and 188). -/
def twoPackets : List Nat := onePacket ++ onePacket

/-- A 376-byte region with no marker byte anywhere. -/
def zeros376 : List Nat := List.replicate 376 0

/-- A generic mid-run analyzer state: 188-byte bare framing confirmed,
two packets (376 bytes) already written. -/
def exState : RState :=
  { status := Status.RS_OK
    keep_packet_size := false
    out_size := 376
    in_pkt_size := 188
    in_header_size := 0
    out_pkt_size := 188
    out_header_size := 0 }

/-- A 376-byte region whose only marker byte is at offset 0: the 188-byte
probe fails at stride offset 188, while the 204-byte probe (one full stride
in 376 bytes) succeeds. -/
def mixedBuf : List Nat := SYNC_BYTE :: List.replicate 375 0

/-! The following chain replays, on the `Resynchronizer` operations, the exact
operation sequence of one `--keep --continue` invocation whose first pass
confirms 188-byte framing and writes two packets and whose recovery pass
confirms 204-byte framing: search success, two drain writes, recovery
`reset`, failed 188-byte probe, successful 204-byte probe. -/

/-- After the first pass's successful probe (188-byte framing, keep mode). -/
def keepR1 : RState := (checkSync (initResync true) twoPackets 376 188 0).2

/-- After draining the first packet. -/
def keepW1 : Bool × RState × OutStream :=
  writePacket keepR1 { written := [], good := true } twoPackets

/-- After draining the second packet. -/
def keepW2 : Bool × RState × OutStream :=
  writePacket keepW1.2.1 keepW1.2.2 (twoPackets.drop 188)

/-- After the recovery pass's `reset`. -/
def keepR3 : RState := reset keepW2.2.1

/-- After the recovery pass's search at the winning offset: the 188-byte
probe fails (no marker at offset 188 of `mixedBuf`), the 204-byte probe
succeeds and re-derives the output framing as 204-byte packets. -/
def keepR4 : RState :=
  (checkSync (checkSync keepR3 mixedBuf 376 188 0).2 mixedBuf 376 204 0).2

/-! ### Unfolding and bookkeeping lemmas for the primitive operations -/

theorem readData_fst (r : RState) (ins : InStream) (n : Nat) :
    (readData r ins n).1 =
      if n ≤ ins.data.length then r else { r with status := Status.RS_EOF } := by
  unfold readData
  split <;> rfl

theorem readData_out_size (r : RState) (ins : InStream) (n : Nat) :
    (readData r ins n).1.out_size = r.out_size := by
  rw [readData_fst]
  split <;> rfl

theorem readData_out_pkt_size (r : RState) (ins : InStream) (n : Nat) :
    (readData r ins n).1.out_pkt_size = r.out_pkt_size := by
  rw [readData_fst]
  split <;> rfl

theorem writePacket_fst (r : RState) (os : OutStream) (pkt : List Nat) :
    (writePacket r os pkt).1 = os.good := by
  unfold writePacket
  by_cases hg : os.good <;> simp [hg]

theorem writePacket_rstate (r : RState) (os : OutStream) (pkt : List Nat) :
    (writePacket r os pkt).2.1 =
      if os.good then { r with out_size := r.out_size + r.out_pkt_size }
      else { r with status := Status.RS_ERROR } := by
  unfold writePacket
  split <;> rfl

theorem writePacket_out_size_mono (r : RState) (os : OutStream) (pkt : List Nat) :
    r.out_size ≤ (writePacket r os pkt).2.1.out_size := by
  rw [writePacket_rstate]
  split <;> simp

theorem writePacket_out_pkt_size (r : RState) (os : OutStream) (pkt : List Nat) :
    (writePacket r os pkt).2.1.out_pkt_size = r.out_pkt_size := by
  rw [writePacket_rstate]
  split <;> rfl

theorem writePacket_in_pkt_size (r : RState) (os : OutStream) (pkt : List Nat) :
    (writePacket r os pkt).2.1.in_pkt_size = r.in_pkt_size := by
  rw [writePacket_rstate]
  split <;> rfl

/-! ### Step lemmas for the `checkSync` scan loop -/

theorem checkSyncLoop_stop (buf : List Nat) (sz ps hs p : Nat)
    (h : ¬(p + ps ≤ sz ∧ hs + PKT_SIZE ≤ ps)) :
    checkSyncLoop buf sz ps hs p = true := by
  unfold checkSyncLoop
  rw [dif_neg h]

theorem checkSyncLoop_fail (buf : List Nat) (sz ps hs p : Nat)
    (h : p + ps ≤ sz ∧ hs + PKT_SIZE ≤ ps)
    (hb : buf.getD (p + hs) 0 ≠ SYNC_BYTE) :
    checkSyncLoop buf sz ps hs p = false := by
  unfold checkSyncLoop
  rw [dif_pos h, if_pos hb]

theorem checkSyncLoop_next (buf : List Nat) (sz ps hs p : Nat)
    (h : p + ps ≤ sz ∧ hs + PKT_SIZE ≤ ps)
    (hb : buf.getD (p + hs) 0 = SYNC_BYTE) :
    checkSyncLoop buf sz ps hs p = checkSyncLoop buf sz ps hs (p + ps) := by
  conv_lhs => rw [checkSyncLoop]
  rw [dif_pos h, if_neg (fun hc => hc hb)]

theorem checkSync_fst (r : RState) (buf : List Nat) (sz ps hs : Nat) :
    (checkSync r buf sz ps hs).1 = checkSyncLoop buf sz ps hs 0 := by
  unfold checkSync
  split <;> simp_all

theorem checkSync_snd_of_false (r : RState) (buf : List Nat) (sz ps hs : Nat)
    (h : checkSyncLoop buf sz ps hs 0 = false) :
    (checkSync r buf sz ps hs).2 = r := by
  unfold checkSync
  rw [h]
  rfl

theorem checkSync_snd_of_true (r : RState) (buf : List Nat) (sz ps hs : Nat)
    (h : checkSyncLoop buf sz ps hs 0 = true) :
    (checkSync r buf sz ps hs).2 =
      { r with
          in_pkt_size := ps
          in_header_size := hs
          out_pkt_size := if r.keep_packet_size then ps else PKT_SIZE
          out_header_size := if r.keep_packet_size then hs else 0 } := by
  unfold checkSync
  rw [h]
  rfl

theorem checkSync_out_size (r : RState) (buf : List Nat) (sz ps hs : Nat) :
    (checkSync r buf sz ps hs).2.out_size = r.out_size := by
  by_cases h : checkSyncLoop buf sz ps hs 0 = true
  · rw [checkSync_snd_of_true r buf sz ps hs h]
  · rw [checkSync_snd_of_false r buf sz ps hs (by simpa using h)]

/-! ### Step lemmas for the search, drain and steady-state loops -/

theorem searchFrom_stop (r : RState) (buf : List Nat) (ss ps hs off : Nat)
    (h : ¬(off + ss ≤ buf.length)) :
    searchFrom r buf ss ps hs off = (r, none) := by
  unfold searchFrom
  rw [dif_neg h]

theorem searchFrom_found (r : RState) (buf : List Nat) (ss ps hs off : Nat)
    (h : off + ss ≤ buf.length)
    (ht : (tryOffset r (buf.drop off) ss ps hs).1 = true) :
    searchFrom r buf ss ps hs off =
      ((tryOffset r (buf.drop off) ss ps hs).2, some off) := by
  conv_lhs => rw [searchFrom]
  rw [dif_pos h]
  simp only [ht, if_true]

theorem searchFrom_next (r : RState) (buf : List Nat) (ss ps hs off : Nat)
    (h : off + ss ≤ buf.length)
    (ht : (tryOffset r (buf.drop off) ss ps hs).1 = false) :
    searchFrom r buf ss ps hs off =
      searchFrom (tryOffset r (buf.drop off) ss ps hs).2 buf ss ps hs (off + 1) := by
  conv_lhs => rw [searchFrom]
  rw [dif_pos h]
  simp only [ht]
  rfl

theorem drainLoop_stop (r : RState) (os : OutStream) (buf : List Nat) (off : Nat)
    (h : ¬(off + r.in_pkt_size ≤ buf.length ∧
           buf.getD (off + r.in_header_size) 0 = SYNC_BYTE ∧
           0 < r.in_pkt_size)) :
    drainLoop r os buf off = (r, os, off) := by
  unfold drainLoop
  rw [dif_neg h]

theorem drainLoop_step (r : RState) (os : OutStream) (buf : List Nat) (off : Nat)
    (h : off + r.in_pkt_size ≤ buf.length ∧
         buf.getD (off + r.in_header_size) 0 = SYNC_BYTE ∧
         0 < r.in_pkt_size)
    (hw : (writePacket r os (buf.drop off)).1 = true) :
    drainLoop r os buf off =
      drainLoop (writePacket r os (buf.drop off)).2.1
        (writePacket r os (buf.drop off)).2.2 buf (off + r.in_pkt_size) := by
  conv_lhs => rw [drainLoop]
  rw [dif_pos h]
  simp only [hw, if_true]

theorem drainLoop_break (r : RState) (os : OutStream) (buf : List Nat) (off : Nat)
    (h : off + r.in_pkt_size ≤ buf.length ∧
         buf.getD (off + r.in_header_size) 0 = SYNC_BYTE ∧
         0 < r.in_pkt_size)
    (hw : (writePacket r os (buf.drop off)).1 = false) :
    drainLoop r os buf off =
      ((writePacket r os (buf.drop off)).2.1,
       (writePacket r os (buf.drop off)).2.2, off) := by
  conv_lhs => rw [drainLoop]
  rw [dif_pos h]
  simp only [hw]
  rfl

theorem steadyLoop_done (r : RState) (ins : InStream) (os : OutStream)
    (pre : List Nat)
    (h : ¬(r.status = Status.RS_OK ∧ pre.length < r.in_pkt_size)) :
    steadyLoop r ins os pre = (r, ins, os, pre) := by
  unfold steadyLoop
  rw [dif_neg h]

theorem steadyLoop_eof (r : RState) (ins : InStream) (os : OutStream)
    (pre : List Nat)
    (hok : r.status = Status.RS_OK) (hpre : pre.length < r.in_pkt_size)
    (hshort : ins.data.length < r.in_pkt_size - pre.length) :
    steadyLoop r ins os pre =
      ({ r with status := Status.RS_EOF }, { ins with data := [] }, os, pre) := by
  have hnle : ¬(r.in_pkt_size - pre.length ≤ ins.data.length) := by omega
  conv_lhs => rw [steadyLoop]
  rw [dif_pos ⟨hok, hpre⟩]
  simp only [readData, if_neg hnle]
  rw [dif_pos (by simp; omega : ([] : List Nat).length ≠ r.in_pkt_size - pre.length)]

theorem steadyLoop_synclost (r : RState) (ins : InStream) (os : OutStream)
    (pre : List Nat)
    (hok : r.status = Status.RS_OK) (hpre : pre.length < r.in_pkt_size)
    (hle : r.in_pkt_size - pre.length ≤ ins.data.length)
    (hbad : (pre ++ ins.data.take (r.in_pkt_size - pre.length)).getD
        r.in_header_size 0 ≠ SYNC_BYTE) :
    steadyLoop r ins os pre =
      ({ r with status := Status.RS_SYNC_LOST },
       { ins with data := ins.data.drop (r.in_pkt_size - pre.length) }, os,
       pre ++ ins.data.take (r.in_pkt_size - pre.length)) := by
  have hlen : (ins.data.take (r.in_pkt_size - pre.length)).length =
      r.in_pkt_size - pre.length := by
    rw [List.length_take]
    omega
  conv_lhs => rw [steadyLoop]
  rw [dif_pos ⟨hok, hpre⟩]
  simp only [readData, if_pos hle]
  rw [dif_neg (by simp [hlen])]
  rw [if_pos hbad]

theorem steadyLoop_write (r : RState) (ins : InStream) (os : OutStream)
    (pre : List Nat)
    (hok : r.status = Status.RS_OK) (hpre : pre.length < r.in_pkt_size)
    (hle : r.in_pkt_size - pre.length ≤ ins.data.length)
    (hgood : (pre ++ ins.data.take (r.in_pkt_size - pre.length)).getD
        r.in_header_size 0 = SYNC_BYTE) :
    steadyLoop r ins os pre =
      steadyLoop
        (writePacket r os (pre ++ ins.data.take (r.in_pkt_size - pre.length))).2.1
        { ins with data := ins.data.drop (r.in_pkt_size - pre.length) }
        (writePacket r os (pre ++ ins.data.take (r.in_pkt_size - pre.length))).2.2
        [] := by
  have hlen : (ins.data.take (r.in_pkt_size - pre.length)).length =
      r.in_pkt_size - pre.length := by
    rw [List.length_take]
    omega
  conv_lhs => rw [steadyLoop]
  rw [dif_pos ⟨hok, hpre⟩]
  simp only [readData, if_pos hle]
  rw [dif_neg (by simp [hlen])]
  rw [if_neg (fun hc => hc hgood)]

theorem runPasses_zero (opt : Opts) (r : RState) (ins : InStream)
    (os : OutStream) (pre : List Nat) :
    runPasses opt 0 r ins os pre = onePass opt r ins os pre := rfl

theorem runPasses_succ_stop (opt : Opts) (fuel : Nat) (r : RState)
    (ins : InStream) (os : OutStream) (pre : List Nat)
    (h : ¬((onePass opt r ins os pre).1.status = Status.RS_OK ∨
           ((onePass opt r ins os pre).1.status = Status.RS_SYNC_LOST ∧
            opt.cont_sync = true))) :
    runPasses opt (fuel + 1) r ins os pre = onePass opt r ins os pre := by
  conv_lhs => rw [runPasses]
  simp only [if_neg h]

theorem runPasses_succ_go (opt : Opts) (fuel : Nat) (r : RState)
    (ins : InStream) (os : OutStream) (pre : List Nat)
    (h : (onePass opt r ins os pre).1.status = Status.RS_OK ∨
         ((onePass opt r ins os pre).1.status = Status.RS_SYNC_LOST ∧
          opt.cont_sync = true)) :
    runPasses opt (fuel + 1) r ins os pre =
      runPasses opt fuel (onePass opt r ins os pre).1
        (onePass opt r ins os pre).2.1 (onePass opt r ins os pre).2.2.1
        (onePass opt r ins os pre).2.2.2 := by
  conv_lhs => rw [runPasses]
  simp only [if_pos h]

/-! ### The byte counter through the engine's phases -/

theorem tryOffset_out_size (r : RState) (view : List Nat) (ss ps hs : Nat) :
    (tryOffset r view ss ps hs).2.out_size = r.out_size := by
  simp only [tryOffset]
  split_ifs <;> simp [checkSync_out_size]

theorem searchFrom_out_size_aux (buf : List Nat) (ss ps hs : Nat) :
    ∀ (n : Nat) (r : RState) (off : Nat), buf.length + 1 - off ≤ n →
      (searchFrom r buf ss ps hs off).1.out_size = r.out_size := by
  intro n
  induction n with
  | zero =>
    intro r off hn
    rw [searchFrom_stop _ _ _ _ _ _ (by omega)]
  | succ n ih =>
    intro r off hn
    by_cases hg : off + ss ≤ buf.length
    · by_cases ht : (tryOffset r (buf.drop off) ss ps hs).1 = true
      · rw [searchFrom_found _ _ _ _ _ _ hg ht]
        exact tryOffset_out_size _ _ _ _ _
      · rw [searchFrom_next _ _ _ _ _ _ hg (by simpa using ht)]
        rw [ih _ _ (by omega)]
        exact tryOffset_out_size _ _ _ _ _
    · rw [searchFrom_stop _ _ _ _ _ _ hg]

theorem searchFrom_out_size (r : RState) (buf : List Nat) (ss ps hs off : Nat) :
    (searchFrom r buf ss ps hs off).1.out_size = r.out_size :=
  searchFrom_out_size_aux buf ss ps hs (buf.length + 1 - off) r off le_rfl

theorem drainLoop_out_size_mono_aux (buf : List Nat) :
    ∀ (n : Nat) (r : RState) (os : OutStream) (off : Nat), buf.length - off ≤ n →
      r.out_size ≤ (drainLoop r os buf off).1.out_size := by
  intro n
  induction n with
  | zero =>
    intro r os off hn
    rw [drainLoop_stop _ _ _ _ (by rintro ⟨h1, h2, h3⟩; omega)]
  | succ n ih =>
    intro r os off hn
    by_cases hg : off + r.in_pkt_size ≤ buf.length ∧
        buf.getD (off + r.in_header_size) 0 = SYNC_BYTE ∧ 0 < r.in_pkt_size
    · by_cases hw : (writePacket r os (buf.drop off)).1 = true
      · rw [drainLoop_step _ _ _ _ hg hw]
        refine le_trans (writePacket_out_size_mono r os (buf.drop off)) ?_
        obtain ⟨hg1, hg2, hg3⟩ := hg
        exact ih _ _ _ (by omega)
      · rw [drainLoop_break _ _ _ _ hg (by simpa using hw)]
        exact writePacket_out_size_mono r os (buf.drop off)
    · rw [drainLoop_stop _ _ _ _ hg]

theorem drainLoop_out_size_mono (r : RState) (os : OutStream) (buf : List Nat)
    (off : Nat) : r.out_size ≤ (drainLoop r os buf off).1.out_size :=
  drainLoop_out_size_mono_aux buf (buf.length - off) r os off le_rfl

theorem steadyLoop_out_size_mono_aux :
    ∀ (n : Nat) (r : RState) (ins : InStream) (os : OutStream) (pre : List Nat),
      ins.data.length ≤ n → r.out_size ≤ (steadyLoop r ins os pre).1.out_size := by
  intro n
  induction n with
  | zero =>
    intro r ins os pre hn
    by_cases hg : r.status = Status.RS_OK ∧ pre.length < r.in_pkt_size
    · rw [steadyLoop_eof _ _ _ _ hg.1 hg.2 (by omega)]
    · rw [steadyLoop_done _ _ _ _ hg]
  | succ n ih =>
    intro r ins os pre hn
    by_cases hg : r.status = Status.RS_OK ∧ pre.length < r.in_pkt_size
    · obtain ⟨hok, hpre⟩ := hg
      by_cases hle : r.in_pkt_size - pre.length ≤ ins.data.length
      · by_cases hb : (pre ++ ins.data.take (r.in_pkt_size - pre.length)).getD
            r.in_header_size 0 = SYNC_BYTE
        · rw [steadyLoop_write _ _ _ _ hok hpre hle hb]
          refine le_trans
            (writePacket_out_size_mono r os
              (pre ++ ins.data.take (r.in_pkt_size - pre.length))) ?_
          refine ih _ _ _ _ ?_
          show (ins.data.drop (r.in_pkt_size - pre.length)).length ≤ n
          rw [List.length_drop]
          omega
        · rw [steadyLoop_synclost _ _ _ _ hok hpre hle hb]
      · rw [steadyLoop_eof _ _ _ _ hok hpre (by omega)]
    · rw [steadyLoop_done _ _ _ _ hg]

theorem steadyLoop_out_size_mono (r : RState) (ins : InStream) (os : OutStream)
    (pre : List Nat) : r.out_size ≤ (steadyLoop r ins os pre).1.out_size :=
  steadyLoop_out_size_mono_aux ins.data.length r ins os pre le_rfl

theorem compactAndClassify_snd (r : RState) (buf : List Nat) (endOff : Nat) :
    (compactAndClassify r buf endOff).2 = buf.drop endOff := by
  simp only [compactAndClassify]
  split <;> rfl

theorem compactAndClassify_out_size (r : RState) (buf : List Nat) (endOff : Nat) :
    (compactAndClassify r buf endOff).1.out_size = r.out_size := by
  simp only [compactAndClassify]
  split <;> rfl

theorem compactAndClassify_lost (r : RState) (buf : List Nat) (endOff : Nat)
    (h : r.in_pkt_size ≤ (buf.drop endOff).length) :
    (compactAndClassify r buf endOff).1 = { r with status := Status.RS_SYNC_LOST } := by
  simp only [compactAndClassify]
  rw [if_pos h]

theorem compactAndClassify_keepState (r : RState) (buf : List Nat) (endOff : Nat)
    (h : (buf.drop endOff).length < r.in_pkt_size) :
    (compactAndClassify r buf endOff).1 = r := by
  simp only [compactAndClassify]
  rw [if_neg (by omega)]

theorem afterDrain_out_size_mono (r : RState) (buf : List Nat) (endOff : Nat)
    (ins : InStream) (os : OutStream) :
    r.out_size ≤ (afterDrain r buf endOff ins os).1.out_size := by
  unfold afterDrain
  refine le_trans (le_of_eq (compactAndClassify_out_size r buf endOff).symm) ?_
  exact steadyLoop_out_size_mono _ _ _ _

theorem onePass_out_size_mono (opt : Opts) (r0 : RState) (ins0 : InStream)
    (os0 : OutStream) (pre : List Nat) :
    r0.out_size ≤ (onePass opt r0 ins0 os0 pre).1.out_size := by
  unfold onePass
  rcases hT : readData (reset r0) ins0 (opt.sync_size + opt.contig_size - pre.length)
    with ⟨r1, ins1, bytes⟩
  have h1 : r1.out_size = r0.out_size := by
    have h := readData_out_size (reset r0) ins0
      (opt.sync_size + opt.contig_size - pre.length)
    rw [hT] at h
    exact h
  dsimp only
  rcases hS : searchFrom r1 (pre ++ bytes)
      (min opt.contig_size (pre ++ bytes).length) opt.packet_size opt.header_size 0
    with ⟨r2, found⟩
  have h2 : r2.out_size = r1.out_size := by
    have h := searchFrom_out_size r1 (pre ++ bytes)
      (min opt.contig_size (pre ++ bytes).length) opt.packet_size opt.header_size 0
    rw [hS] at h
    exact h
  dsimp only
  cases found with
  | none =>
    dsimp only
    omega
  | some off =>
    dsimp only
    rcases hD : drainLoop r2 os0 (pre ++ bytes) off with ⟨r3, os3, endOff⟩
    have h3 : r2.out_size ≤ r3.out_size := by
      have h := drainLoop_out_size_mono r2 os0 (pre ++ bytes) off
      rw [hD] at h
      exact h
    dsimp only
    split
    · dsimp only
      omega
    · have h4 : r3.out_size ≤ (afterDrain r3 (pre ++ bytes) endOff ins1 os3).1.out_size :=
        afterDrain_out_size_mono _ _ _ _ _
      omega

theorem runPasses_out_size_mono (opt : Opts) (fuel : Nat) (r : RState)
    (ins : InStream) (os : OutStream) (pre : List Nat) :
    r.out_size ≤ (runPasses opt fuel r ins os pre).1.out_size := by
  induction fuel generalizing r ins os pre with
  | zero =>
    rw [runPasses_zero]
    exact onePass_out_size_mono _ _ _ _ _
  | succ n ih =>
    by_cases hc : (onePass opt r ins os pre).1.status = Status.RS_OK ∨
        ((onePass opt r ins os pre).1.status = Status.RS_SYNC_LOST ∧
         opt.cont_sync = true)
    · rw [runPasses_succ_go _ _ _ _ _ _ hc]
      exact le_trans (onePass_out_size_mono _ _ _ _ _) (ih _ _ _ _)
    · rw [runPasses_succ_stop _ _ _ _ _ _ hc]
      exact onePass_out_size_mono _ _ _ _ _

/-! ### Extensional characterization of the scan loop -/

theorem checkSyncLoop_true_iff_aux (buf : List Nat) (sz ps hs : Nat)
    (hps : hs + PKT_SIZE ≤ ps) :
    ∀ (n p : Nat), sz - p ≤ n →
      (checkSyncLoop buf sz ps hs p = true ↔
        ∀ k, p + k * ps + ps ≤ sz → buf.getD (p + k * ps + hs) 0 = SYNC_BYTE) := by
  have hpos : 0 < ps := by
    unfold PKT_SIZE at hps
    omega
  intro n
  induction n with
  | zero =>
    intro p hp
    rw [checkSyncLoop_stop _ _ _ _ _ (by rintro ⟨h1, h2⟩; omega)]
    constructor
    · intro _ k hk
      exfalso
      have hk0 : 0 ≤ k * ps := Nat.zero_le _
      omega
    · intro _
      rfl
  | succ n ih =>
    intro p hp
    by_cases hg : p + ps ≤ sz
    · by_cases hb : buf.getD (p + hs) 0 = SYNC_BYTE
      · rw [checkSyncLoop_next _ _ _ _ _ ⟨hg, hps⟩ hb]
        rw [ih (p + ps) (by omega)]
        constructor
        · intro hall k hk
          cases k with
          | zero =>
            simpa using hb
          | succ k =>
            have hm : (k + 1) * ps = k * ps + ps := Nat.succ_mul k ps
            have heq : p + ps + (k * ps) + hs = p + (k + 1) * ps + hs := by omega
            rw [← heq]
            exact hall k (by omega)
        · intro hall k hk
          have hm : (k + 1) * ps = k * ps + ps := Nat.succ_mul k ps
          have h2 := hall (k + 1) (by omega)
          have heq : p + (k + 1) * ps + hs = p + ps + k * ps + hs := by omega
          rw [heq] at h2
          exact h2
      · rw [checkSyncLoop_fail _ _ _ _ _ ⟨hg, hps⟩ hb]
        constructor
        · intro hff
          exact absurd hff (by simp)
        · intro hall
          exfalso
          exact hb (by simpa using hall 0 (by simpa using hg))
    · rw [checkSyncLoop_stop _ _ _ _ _ (by rintro ⟨h1, h2⟩; omega)]
      constructor
      · intro _ k hk
        exfalso
        have hk0 : 0 ≤ k * ps := Nat.zero_le _
        omega
      · intro _
        rfl

theorem checkSyncLoop_true_iff (buf : List Nat) (sz ps hs : Nat)
    (hps : hs + PKT_SIZE ≤ ps) :
    checkSyncLoop buf sz ps hs 0 = true ↔
      ∀ k, k * ps + ps ≤ sz → buf.getD (k * ps + hs) 0 = SYNC_BYTE := by
  have h := checkSyncLoop_true_iff_aux buf sz ps hs hps sz 0 (by omega)
  simpa using h

/-! ### Claim C1 (corrected) -/

/-- Claim C1, counterexample.  The claim states that for a region strictly
shorter than the candidate packet size (with `pkt_size ≥ header_size + 188`),
`checkSync` returns false and does not confirm a framing.  On a 100-byte
all-zero region probed with packet size 188, the scan loop's guard
`buf < buf + buf_size - pkt_size + 1` is false at the very first step, so the
loop body never runs and the function falls through to the success path:
it returns true and records 188 as the confirmed input packet size. -/
theorem claim1_counterexample :
    (checkSync (initResync false) (List.replicate 100 0) 100 188 0).1 = true ∧
    (checkSync (initResync false) (List.replicate 100 0) 100 188 0).2.in_pkt_size
      = 188 := by
  have hl : checkSyncLoop (List.replicate 100 0) 100 188 0 0 = true :=
    checkSyncLoop_stop _ _ _ _ _ (by decide)
  constructor
  · rw [checkSync_fst]
    exact hl
  · rw [checkSync_snd_of_true _ _ _ _ _ hl]

/-- Claim C1, amended.  When the region is strictly shorter than the candidate
packet size (and the entry assertion `pkt_size ≥ header_size + 188` holds),
`checkSync` examines no byte at all, returns true, and confirms the candidate
as the input framing. -/
theorem claim1_amended (r : RState) (buf : List Nat) (sz ps hs : Nat)
    (hshort : sz < ps) (hassert : hs + PKT_SIZE ≤ ps) :
    (checkSync r buf sz ps hs).1 = true ∧
    (checkSync r buf sz ps hs).2.in_pkt_size = ps ∧
    (checkSync r buf sz ps hs).2.in_header_size = hs := by
  have hl : checkSyncLoop buf sz ps hs 0 = true :=
    checkSyncLoop_stop _ _ _ _ _ (by rintro ⟨h1, h2⟩; omega)
  refine ⟨?_, ?_, ?_⟩
  · rw [checkSync_fst]
    exact hl
  · rw [checkSync_snd_of_true _ _ _ _ _ hl]
  · rw [checkSync_snd_of_true _ _ _ _ _ hl]

/-- Claim C1, witness for the amended theorem, at the counterexample's
concrete input. -/
theorem claim1_witness :
    (checkSync exState (List.replicate 100 0) 100 188 0).1 = true ∧
    (checkSync exState (List.replicate 100 0) 100 188 0).2.in_pkt_size = 188 ∧
    (checkSync exState (List.replicate 100 0) 100 188 0).2.in_header_size = 0 :=
  claim1_amended exState (List.replicate 100 0) 100 188 0 (by decide) (by decide)

/-! ### Claim C2 (confirmed) -/

/-- Claim C2.  For a region of length at least the candidate packet size
(under the entry assertion `pkt_size ≥ header_size + 188`), `checkSync`
returns true exactly when every stride-aligned position `k * pkt_size` with a
full packet remaining (`k * pkt_size + pkt_size ≤ buf_size`) carries the
marker byte at offset `k * pkt_size + header_size`.  The equivalence also
captures the short-circuit behaviour extensionally: if any checked stride
fails, the result is false regardless of the bytes at later strides. -/
theorem claim2_checkSync_iff (r : RState) (buf : List Nat) (sz ps hs : Nat)
    (hassert : hs + PKT_SIZE ≤ ps) (hlen : ps ≤ sz) :
    ((checkSync r buf sz ps hs).1 = true ↔
      ∀ k, k * ps + ps ≤ sz → buf.getD (k * ps + hs) 0 = SYNC_BYTE) := by
  rw [checkSync_fst]
  exact checkSyncLoop_true_iff buf sz ps hs hassert

/-- Claim C2, witness: the equivalence instantiated on a 376-byte buffer
holding two valid bare packets, probed with packet size 188. -/
theorem claim2_witness :
    ((checkSync (initResync false) twoPackets 376 188 0).1 = true ↔
      ∀ k, k * 188 + 188 ≤ 376 → twoPackets.getD (k * 188 + 0) 0 = SYNC_BYTE) :=
  claim2_checkSync_iff (initResync false) twoPackets 376 188 0 (by decide) (by decide)

/-! ### Claim C9 (confirmed) -/

/-- Claim C9.  A failed probe is atomic: when `checkSync` returns false the
whole `Resynchronizer` state -- confirmed packet and header sizes, output
byte counter, status -- is exactly what it was before the call. -/
theorem claim9_checkSync_atomic (r : RState) (buf : List Nat) (sz ps hs : Nat)
    (h : (checkSync r buf sz ps hs).1 = false) :
    (checkSync r buf sz ps hs).2 = r := by
  rw [checkSync_fst] at h
  exact checkSync_snd_of_false r buf sz ps hs h

/-- Claim C9, witness: a probe of an all-zero 376-byte region fails and leaves
the state untouched. -/
theorem claim9_witness :
    (checkSync exState zeros376 376 188 0).1 = false ∧
    (checkSync exState zeros376 376 188 0).2 = exState := by
  have hl : checkSyncLoop zeros376 376 188 0 0 = false :=
    checkSyncLoop_fail _ _ _ _ _ (by decide) (by decide)
  have h1 : (checkSync exState zeros376 376 188 0).1 = false := by
    rw [checkSync_fst]
    exact hl
  exact ⟨h1, claim9_checkSync_atomic exState zeros376 376 188 0 h1⟩

/-! ### Claim C10 (confirmed) -/

/-- Claim C10.  `outputFilePackets` is total and never divides by zero: for
every state, if no framing has been confirmed yet (`out_pkt_size = 0`) it
returns 0, and otherwise it returns the floor quotient of the output byte
counter by the output packet size (characterized order-theoretically, so the
statement is not a restatement of the definition). -/
theorem claim10_outputFilePackets (r : RState) :
    (r.out_pkt_size = 0 → outputFilePackets r = 0) ∧
    (0 < r.out_pkt_size →
      outputFilePackets r * r.out_pkt_size ≤ r.out_size ∧
      r.out_size < (outputFilePackets r + 1) * r.out_pkt_size) := by
  constructor
  · intro h
    simp [outputFilePackets, h]
  · intro h
    have hne : r.out_pkt_size ≠ 0 := by omega
    unfold outputFilePackets
    rw [if_neg hne]
    exact ⟨Nat.div_mul_le_self _ _,
      (Nat.div_lt_iff_lt_mul h).mp (Nat.lt_succ_self _)⟩

/-- Claim C10, witness: the unconfirmed initial state reports zero packets,
and a confirmed mid-run state reports the floor quotient. -/
theorem claim10_witness :
    outputFilePackets (initResync false) = 0 ∧
    (outputFilePackets exState * exState.out_pkt_size ≤ exState.out_size ∧
     exState.out_size < (outputFilePackets exState + 1) * exState.out_pkt_size) :=
  ⟨(claim10_outputFilePackets (initResync false)).1 (by decide),
   (claim10_outputFilePackets exState).2 (by decide)⟩

/-! ### Claim C3 (corrected) -/

/-- Claim C3, counterexample.  The claim states that a short read in the
steady-state loop whose shortfall is not a clean end-of-stream transitions to
`IoError` (`RS_ERROR`).  On a confirmed 188-byte framing with an input port
whose exhaustion is a hard read error (`hardError := true`), the short read
nevertheless ends the run with `RS_EOF` (Done): `std::cin.read` reports error
and end-of-file through the same failed stream state, `readData` maps both to
`RS_EOF`, and the loop's own short-read branch also sets `RS_EOF`. -/
theorem claim3_counterexample :
    (steadyLoop exState { data := [], hardError := true }
        { written := [], good := true } []).1.status = Status.RS_EOF ∧
    Status.RS_EOF ≠ Status.RS_ERROR := by
  constructor
  · rw [steadyLoop_eof _ _ _ _ (by decide) (by decide) (by decide)]
  · decide

/-- Claim C3, amended.  In the steady-state loop, whenever the read for the
remainder of one packet returns fewer bytes than requested, the engine
transitions to `Done` (`RS_EOF`) -- for a clean end-of-stream and for a hard
read error alike (the explicit `err` binder ranges over both) -- and writes
nothing; `RS_ERROR` is unreachable from a read. -/
theorem claim3_amended (r : RState) (dat : List Nat) (err : Bool)
    (os : OutStream) (pre : List Nat)
    (hok : r.status = Status.RS_OK) (hpre : pre.length < r.in_pkt_size)
    (hshort : dat.length < r.in_pkt_size - pre.length) :
    (steadyLoop r { data := dat, hardError := err } os pre).1.status
        = Status.RS_EOF ∧
    (steadyLoop r { data := dat, hardError := err } os pre).2.2.1 = os := by
  rw [steadyLoop_eof _ _ _ _ hok hpre hshort]
  exact ⟨rfl, rfl⟩

/-- Claim C3, witness: three stray bytes then a hard error, against a
confirmed 188-byte framing. -/
theorem claim3_witness :
    (steadyLoop exState { data := [1, 2, 3], hardError := true }
        { written := [], good := true } []).1.status = Status.RS_EOF ∧
    (steadyLoop exState { data := [1, 2, 3], hardError := true }
        { written := [], good := true } []).2.2.1 = { written := [], good := true } :=
  claim3_amended exState [1, 2, 3] true { written := [], good := true } []
    (by decide) (by decide) (by decide)

/-! ### Claim C7 (confirmed) -/

/-- Claim C7.  After the initial drain, the leftover bytes
`buf.drop endOff` are compacted to the buffer start preserving their order
(the carried-over list is exactly that contiguous suffix of the buffer);
if at least one full input packet is left over the engine transitions to
`RS_SYNC_LOST` with those bytes preserved as the next pass's carry-over,
and otherwise it proceeds into the steady-state loop with them. -/
theorem claim7_compaction (r : RState) (buf : List Nat) (endOff : Nat)
    (ins : InStream) (os : OutStream) :
    (compactAndClassify r buf endOff).2 = buf.drop endOff ∧
    (compactAndClassify r buf endOff).2 <:+ buf ∧
    (r.in_pkt_size ≤ (buf.drop endOff).length →
      (compactAndClassify r buf endOff).1 = { r with status := Status.RS_SYNC_LOST } ∧
      afterDrain r buf endOff ins os =
        ({ r with status := Status.RS_SYNC_LOST }, ins, os, buf.drop endOff)) ∧
    ((buf.drop endOff).length < r.in_pkt_size →
      (compactAndClassify r buf endOff).1 = r ∧
      afterDrain r buf endOff ins os = steadyLoop r ins os (buf.drop endOff)) := by
  refine ⟨compactAndClassify_snd _ _ _, ?_, ?_, ?_⟩
  · rw [compactAndClassify_snd]
    exact List.drop_suffix endOff buf
  · intro h
    refine ⟨compactAndClassify_lost _ _ _ h, ?_⟩
    unfold afterDrain
    dsimp only
    rw [compactAndClassify_lost _ _ _ h, compactAndClassify_snd]
    rw [steadyLoop_done _ _ _ _ (by simp)]
  · intro h
    refine ⟨compactAndClassify_keepState _ _ _ h, ?_⟩
    unfold afterDrain
    dsimp only
    rw [compactAndClassify_keepState _ _ _ h, compactAndClassify_snd]

/-- Claim C7, witness: an 88-byte leftover (less than one packet) is carried
into the steady-state loop unchanged, and a 376-byte leftover (two full
packets) flips the status to `RS_SYNC_LOST`. -/
theorem claim7_witness :
    (compactAndClassify exState onePacket 100).2 = onePacket.drop 100 ∧
    afterDrain exState onePacket 100 { data := [], hardError := false }
        { written := [], good := true } =
      steadyLoop exState { data := [], hardError := false }
        { written := [], good := true } (onePacket.drop 100) ∧
    (compactAndClassify exState twoPackets 0).1 =
      { exState with status := Status.RS_SYNC_LOST } :=
  ⟨(claim7_compaction exState onePacket 100 { data := [], hardError := false }
      { written := [], good := true }).1,
   ((claim7_compaction exState onePacket 100 { data := [], hardError := false }
      { written := [], good := true }).2.2.2 (by decide)).2,
   ((claim7_compaction exState twoPackets 0 { data := [], hardError := false }
      { written := [], good := true }).2.2.1 (by decide)).1⟩

/-! ### Claim C8 (confirmed) -/

/-- Claim C8.  A pinned configuration with `header_size + 188 > packet_size`
is rejected up front: the run returns the configuration error for every input
stream and every fuel (so nothing is read) and produces no output (the error
result carries none).  When a valid packet size is pinned, each step of the
candidate search consults exactly the pinned (packet size, header size)
format -- `tryOffset` is literally `checkSync` of that single pair, and none
of the three default candidates is ever probed. -/
theorem claim8_pinned_config (opt : Opts) (ins : InStream) (fuel : Nat)
    (r : RState) (view : List Nat) (ss : Nat) :
    (0 < opt.packet_size → opt.packet_size < opt.header_size + PKT_SIZE →
      tsresyncMain opt ins fuel = Except.error ()) ∧
    (0 < opt.packet_size →
      tryOffset r view ss opt.packet_size opt.header_size =
        checkSync r view ss opt.packet_size opt.header_size) := by
  constructor
  · intro h1 h2
    unfold tsresyncMain
    rw [if_pos ⟨h1, h2⟩]
  · intro h1
    unfold tryOffset
    rw [if_pos h1]

/-- Claim C8, witness: the 100-byte pinned packet size is rejected with no
output on an arbitrary stream, and a valid pinned 400/10 framing turns the
per-offset trial into a probe of exactly that pair. -/
theorem claim8_witness :
    tsresyncMain badOpts { data := [7, 7, 7], hardError := false } 5
        = Except.error () ∧
    tryOffset exState zeros376 376 pinOpts.packet_size pinOpts.header_size =
      checkSync exState zeros376 376 pinOpts.packet_size pinOpts.header_size :=
  ⟨(claim8_pinned_config badOpts { data := [7, 7, 7], hardError := false } 5
      exState zeros376 376).1 (by decide) (by decide),
   (claim8_pinned_config pinOpts { data := [7, 7, 7], hardError := false } 5
      exState zeros376 376).2 (by decide)⟩

/-! ### Claim C4 (code bug) -/

/-- Claim C4, evaluation at the failing input.  The input is exactly one
valid bare 188-byte packet (N = 1), with the smallest admissible windows and
preserve-framing disabled; the claim (spec property P1) demands one 188-byte
output packet and status `Done`.  The code instead emits nothing: the initial
`readData` requests the full 1400-byte buffer, `std::cin.read` hits
end-of-file after 188 bytes and reports failure, and `readData` ignores the
partial `gcount`, returning 0 with `RS_EOF`; the pass then probes an empty
region (which vacuously confirms 188-byte framing), drains nothing, and stops
with `RS_EOF` -- a success exit with the whole input silently dropped. -/
theorem claim4_lost_input_eval :
    tsresyncMain minOpts { data := onePacket, hardError := false } 0 =
      Except.ok (Status.RS_EOF, [], 0) ∧
    exitSuccess Status.RS_EOF = true ∧
    onePacket.length = 188 ∧ onePacket.getD 0 0 = SYNC_BYTE := by
  refine ⟨?_, by decide, by decide, by decide⟩
  simp +decide [tsresyncMain, runPasses, onePass, readData, reset, initResync,
    minOpts, onePacket, afterDrain, compactAndClassify, tryOffset, checkSync,
    searchFrom_stop, searchFrom_found, searchFrom_next, drainLoop_stop,
    drainLoop_step, drainLoop_break, steadyLoop_done, steadyLoop_eof,
    steadyLoop_synclost, steadyLoop_write, checkSyncLoop_stop,
    checkSyncLoop_fail, checkSyncLoop_next, writePacket]

/-! ### Claim C5 (code bug) -/

/-- Claim C5, evaluation at the failing input.  The input is one full
verification window (376 = `--min-contiguous` bytes) of zeros -- no byte equals
the marker value at any offset, for any candidate format, at any start
offset -- so the claim (spec property P3) demands the framing-not-found
failure `RS_ERROR`.  The code instead terminates `RS_EOF` with a success
exit: the initial `readData` requests 1400 bytes, hits end-of-file at 376 and
discards the partial read, so the search runs over an empty region, which the
short-region `checkSync` bug vacuously accepts as 188-byte framing; the
`inputPacketSize() == 0` test therefore never fires and `RS_ERROR` is never
set.  No spurious packets are written, but the terminal status contradicts
the claim. -/
theorem claim5_no_marker_eval :
    tsresyncMain minOpts { data := zeros376, hardError := false } 0 =
      Except.ok (Status.RS_EOF, [], 0) ∧
    exitSuccess Status.RS_EOF = true ∧
    Status.RS_EOF ≠ Status.RS_ERROR ∧
    zeros376.length = 376 ∧ (zeros376.all fun b => b != SYNC_BYTE) = true := by
  refine ⟨?_, by decide, by decide, by decide, by decide⟩
  simp +decide [tsresyncMain, runPasses, onePass, readData, reset, initResync,
    minOpts, zeros376, afterDrain, compactAndClassify, tryOffset, checkSync,
    searchFrom_stop, searchFrom_found, searchFrom_next, drainLoop_stop,
    drainLoop_step, drainLoop_break, steadyLoop_done, steadyLoop_eof,
    steadyLoop_synclost, steadyLoop_write, checkSyncLoop_stop,
    checkSyncLoop_fail, checkSyncLoop_next, writePacket]

/-! ### Claim C6 (corrected) -/

/-- Claim C6, counterexample.  The claim states that the reported totals of
bytes written and packets written never decrease across any operation of one
invocation.  Replaying the exact operation sequence of a `--keep --continue`
invocation -- first pass confirms 188-byte framing (`keepR1`), drains two
packets (`keepW1`, `keepW2`), recovery pass resets (`keepR3`) and its search
confirms 204-byte framing (`keepR4`) -- the reported packet total drops from
2 (376 bytes / 188) to 1 (376 bytes / 204) at the successful `checkSync`,
because packets are derived as bytes / output-packet-size rather than
stored. -/
theorem claim6_counterexample :
    outputFilePackets keepR3 = 2 ∧ outputFilePackets keepR4 = 1 ∧
    outputFilePackets keepR4 < outputFilePackets keepR3 := by
  have h1 : checkSyncLoop twoPackets 376 188 0 0 = true := by
    rw [checkSyncLoop_next _ _ _ _ _ (by decide) (by decide)]
    rw [checkSyncLoop_next _ _ _ _ _ (by decide) (by decide)]
    exact checkSyncLoop_stop _ _ _ _ _ (by decide)
  have h2 : checkSyncLoop mixedBuf 376 188 0 0 = false := by
    rw [checkSyncLoop_next _ _ _ _ _ (by decide) (by decide)]
    exact checkSyncLoop_fail _ _ _ _ _ (by decide) (by decide)
  have h3 : checkSyncLoop mixedBuf 376 204 0 0 = true := by
    rw [checkSyncLoop_next _ _ _ _ _ (by decide) (by decide)]
    exact checkSyncLoop_stop _ _ _ _ _ (by decide)
  have e1 : keepR1 =
      { status := Status.RS_OK, keep_packet_size := true, out_size := 0,
        in_pkt_size := 188, in_header_size := 0, out_pkt_size := 188,
        out_header_size := 0 } := by
    unfold keepR1
    rw [checkSync_snd_of_true _ _ _ _ _ h1]
    decide
  have e3 : keepR3 =
      { status := Status.RS_OK, keep_packet_size := true, out_size := 376,
        in_pkt_size := 0, in_header_size := 0, out_pkt_size := 188,
        out_header_size := 0 } := by
    unfold keepR3 keepW2 keepW1
    rw [e1]
    decide
  have e4 : keepR4 =
      { status := Status.RS_OK, keep_packet_size := true, out_size := 376,
        in_pkt_size := 204, in_header_size := 0, out_pkt_size := 204,
        out_header_size := 0 } := by
    unfold keepR4
    rw [e3, checkSync_snd_of_false _ _ _ _ _ h2,
      checkSync_snd_of_true _ _ _ _ _ h3]
    decide
  rw [e3, e4]
  refine ⟨by decide, by decide, by decide⟩

/-- Claim C6, amended.  The byte counter `_out_size` is monotonically
non-decreasing and is never reset: `reset` leaves it (and the derived packet
figure) unchanged, `checkSync` and `readData` leave it unchanged,
`writePacket` only grows it, and the drain loop, the steady-state loop, a
whole pass and the whole multi-pass run only grow it.  The derived
packets-written figure is non-decreasing across every operation that leaves
the output packet size unchanged -- in particular across `writePacket` and
`reset` -- but it is not stored and can drop across a `checkSync` that
confirms a larger output packet size in keep mode (the counterexample). -/
theorem claim6_amended :
    (∀ r : RState, (reset r).out_size = r.out_size ∧
      outputFilePackets (reset r) = outputFilePackets r) ∧
    (∀ (r : RState) (buf : List Nat) (sz ps hs : Nat),
      (checkSync r buf sz ps hs).2.out_size = r.out_size) ∧
    (∀ (r : RState) (ins : InStream) (n : Nat),
      (readData r ins n).1.out_size = r.out_size) ∧
    (∀ (r : RState) (os : OutStream) (pkt : List Nat),
      r.out_size ≤ (writePacket r os pkt).2.1.out_size ∧
      outputFilePackets r ≤ outputFilePackets (writePacket r os pkt).2.1) ∧
    (∀ (r : RState) (os : OutStream) (buf : List Nat) (off : Nat),
      r.out_size ≤ (drainLoop r os buf off).1.out_size) ∧
    (∀ (r : RState) (ins : InStream) (os : OutStream) (pre : List Nat),
      r.out_size ≤ (steadyLoop r ins os pre).1.out_size) ∧
    (∀ (opt : Opts) (r : RState) (ins : InStream) (os : OutStream)
      (pre : List Nat),
      r.out_size ≤ (onePass opt r ins os pre).1.out_size) ∧
    (∀ (opt : Opts) (fuel : Nat) (r : RState) (ins : InStream)
      (os : OutStream) (pre : List Nat),
      r.out_size ≤ (runPasses opt fuel r ins os pre).1.out_size) := by
  refine ⟨?_, ?_, ?_, ?_, ?_, ?_, ?_, ?_⟩
  · intro r
    exact ⟨rfl, rfl⟩
  · intro r buf sz ps hs
    exact checkSync_out_size r buf sz ps hs
  · intro r ins n
    exact readData_out_size r ins n
  · intro r os pkt
    refine ⟨writePacket_out_size_mono r os pkt, ?_⟩
    rw [writePacket_rstate]
    split
    · by_cases h : r.out_pkt_size = 0
      · simp [outputFilePackets, h]
      · simp only [outputFilePackets, if_neg h]
        exact Nat.div_le_div_right (Nat.le_add_right _ _)
    · exact le_rfl
  · intro r os buf off
    exact drainLoop_out_size_mono r os buf off
  · intro r ins os pre
    exact steadyLoop_out_size_mono r ins os pre
  · intro opt r ins os pre
    exact onePass_out_size_mono opt r ins os pre
  · intro opt fuel r ins os pre
    exact runPasses_out_size_mono opt fuel r ins os pre

end TsResync
